import Mathlib

/-!
Verification of the core proxy layer of libmultiprocess
(src/include/mp/proxy.h): method trait dispatch, field accessor flags,
client/server proxy lifecycle and the callback wrapper.

The header declares `ProxyServerBase::invokeDestroy`, the
`ProxyClientBase` constructor/destructor and the connection teardown
path but defines them elsewhere in the repository; those parts are
modelled from the specification and marked as such in their doc
comments.  Everything else is translated directly from the source.
-/

namespace mp

/-- Codes naming C++ types, with `void` distinguished, used to model the
`TypeList`-level computations of the trait classes. -/
inductive TypeCode where
  | void
  | code (n : Nat)
deriving DecidableEq, Repr

/-- The signature carried by a native method pointer
`_Result (_Class::*const)(_Params...)` (proxy.h lines 128-129): an ordered
list of parameter type codes and a result type code. -/
structure MethodSig where
  params : List TypeCode
  result : TypeCode
deriving DecidableEq, Repr

namespace FunctionTraits

/-- Embeds `FunctionTraits::Params = TypeList<_Params...>` (proxy.h line 131). -/
def Params (m : MethodSig) : List TypeCode := m.params

/-- Embeds `FunctionTraits::Result = _Result` (proxy.h line 132). -/
def Result (m : MethodSig) : TypeCode := m.result

/-- Embeds `FunctionTraits::Param<N>` (proxy.h lines 133-134), the N-th parameter
type; out-of-range indices have no corresponding `std::tuple_element`. -/
def Param (m : MethodSig) (n : Nat) : Option TypeCode := m.params.get? n

/-- Embeds `FunctionTraits::Fields` (proxy.h lines 135-136):
`std::conditional<std::is_same<void, Result>::value, Params,
TypeList<_Params..., _Result>>`. -/
def Fields (m : MethodSig) : List TypeCode :=
  if Result m = TypeCode.void then Params m else m.params ++ [m.result]

end FunctionTraits

namespace ProxyMethodTraitsDefault

/-- Primary template `ProxyMethodTraits` (proxy.h lines 149-160), used only
when no `ProxyMethod<MethodParams>::impl` method pointer exists:
`Params = TypeList<>`. -/
def Params : List TypeCode := []

/-- Embeds `Result = void` for the unbound case (proxy.h line 153). -/
def Result : TypeCode := TypeCode.void

/-- Embeds `Fields = Params` for the unbound case (proxy.h line 154). -/
def Fields : List TypeCode := Params

/-- Embeds `static void invoke(ServerContext&) \x7b\x7d` (proxy.h lines 156-159): takes
the server context, changes nothing and returns nothing, modelled as a
state transformer returning the state unchanged and `Unit`. -/
def invoke {S : Type} (server_context : S) : S × Unit := (server_context, ())

end ProxyMethodTraitsDefault

/-- State of a `ProxyServerBase` (proxy.h lines 86-112): the shared
implementation pointer `m_impl` (`none` models an empty `shared_ptr`),
together with a counter of how many times the held implementation object
has been released, used to express the single-release obligations of the
spec. -/
structure ServerState (Impl : Type) where
  m_impl : Option Impl
  releases : Nat
deriving DecidableEq, Repr

/-- A server context as used by `ProxyMethodTraits::invoke`
(proxy.h line 169): exposes the proxy server via `proxy_server`. -/
structure ServerContext (Impl : Type) where
  proxy_server : ServerState Impl
deriving DecidableEq, Repr

/-- Modelled from the spec: the body of `ProxyServerBase::invokeDestroy`
is declared at proxy.h line 95 but defined outside src/.  Per the spec it
"releases the held implementation object early (sets the owning reference
to empty) without destroying the server proxy object itself" and "must be
safe to call even if the implementation was already released".  The
release counter increments only when an object was actually held. -/
def ServerState.invokeDestroy {Impl : Type} (s : ServerState Impl) : ServerState Impl :=
  match s.m_impl with
  | some _ => { m_impl := none, releases := s.releases + 1 }
  | none => s

/-- Modelled from the spec: the `~ProxyServerBase` destructor body
(declared at proxy.h line 94, defined outside src/) — "if `invokeDestroy`
was not already called, releases the implementation object as part of
teardown". -/
def ServerState.destructorRelease {Impl : Type} (s : ServerState Impl) : ServerState Impl :=
  match s.m_impl with
  | some _ => { m_impl := none, releases := s.releases + 1 }
  | none => s

/-- Embeds `ProxyMethodTraits<MethodParams, Require<decltype(ProxyMethod<MethodParams>::impl)>>
::invoke` (proxy.h lines 163-170): calls the native method pointer
`ProxyMethod<MethodParams>::impl` on `server_context.proxy_server.m_impl.get()`,
forwarding the arguments, and returns the native result.  On an empty
`shared_ptr` the raw pointer from `.get()` is null and the member call is
not a defined access; the embedding returns `none` for that case. -/
def ProxyMethodTraits.invoke {Impl A R : Type} (impl : Impl → A → R)
    (server_context : ServerContext Impl) (args : A) : Option R :=
  match server_context.proxy_server.m_impl with
  | some i => some (impl i args)
  | none => none

/-- Errors surfaced by the server-side request dispatch path. -/
inductive DispatchError where
  | targetDestroyed
deriving DecidableEq, Repr

/-- Modelled from the spec: the server-side request dispatch path (the
repository's serverInvoke plumbing, not under src/) that routes an
incoming request through the method trait `invoke`.  Per the spec, "any
subsequent request dispatch after release must fail cleanly (treated as
'target already destroyed', not undefined access)": a dispatch whose
trait invocation has no live target yields a defined error. -/
def requestDispatch {Impl A R : Type} (impl : Impl → A → R)
    (server_context : ServerContext Impl) (args : A) : Except DispatchError R :=
  match ProxyMethodTraits.invoke impl server_context args with
  | some r => Except.ok r
  | none => Except.error DispatchError.targetDestroyed

/-- Embeds `static constexpr int FIELD_IN = 1` (proxy.h line 186). -/
def FIELD_IN : Nat := 1
/-- Embeds `static constexpr int FIELD_OUT = 2` (proxy.h line 187). -/
def FIELD_OUT : Nat := 2
/-- Embeds `static constexpr int FIELD_OPTIONAL = 4` (proxy.h line 188). -/
def FIELD_OPTIONAL : Nat := 4
/-- Embeds `static constexpr int FIELD_REQUESTED = 8` (proxy.h line 189). -/
def FIELD_REQUESTED : Nat := 8
/-- Embeds `static constexpr int FIELD_BOXED = 16` (proxy.h line 190). -/
def FIELD_BOXED : Nat := 16

namespace Accessor

/-- Embeds `static const bool in = flags & FIELD_IN` (proxy.h line 196); C++
converts the masked int to bool by comparing with zero.  Named `in_`
because `in` is reserved in Lean. -/
def in_ (flags : Nat) : Bool := flags &&& FIELD_IN != 0

/-- Embeds `static const bool out = flags & FIELD_OUT` (proxy.h line 197). -/
def out (flags : Nat) : Bool := flags &&& FIELD_OUT != 0

/-- Embeds `static const bool optional = flags & FIELD_OPTIONAL` (proxy.h line 198). -/
def optional (flags : Nat) : Bool := flags &&& FIELD_OPTIONAL != 0

/-- Embeds `static const bool requested = flags & FIELD_REQUESTED` (proxy.h line 199). -/
def requested (flags : Nat) : Bool := flags &&& FIELD_REQUESTED != 0

/-- Embeds `static const bool boxed = flags & FIELD_BOXED` (proxy.h line 200). -/
def boxed (flags : Nat) : Bool := flags &&& FIELD_BOXED != 0

end Accessor

/-- Composition of accessor flags the way generated code builds them: the
bitwise-or of the constants selected by each boolean. -/
def mkFlags (i o p r b : Bool) : Nat :=
  (cond i FIELD_IN 0) ||| (cond o FIELD_OUT 0) ||| (cond p FIELD_OPTIONAL 0) |||
    (cond r FIELD_REQUESTED 0) ||| (cond b FIELD_BOXED 0)

/-- A `Connection`, as seen by this core: the `CleanupList`
(`std::list<std::function<void()>>`, proxy.h line 39) of registered
cleanup callbacks, each identified by an opaque handle (modelling the
`CleanupIt` list iterator, proxy.h line 40), plus a fresh-handle source
capturing that a newly inserted list node is distinct from all existing
ones. -/
structure Connection where
  cleanups : List Nat
  nextHandle : Nat
deriving DecidableEq, Repr

/-- Modelled from the spec: `Connection::registerCleanup` (an external
interface this core consumes; the Connection class is not under src/)
appends a callback to the cleanup list and returns its handle. -/
def Connection.registerCleanup (c : Connection) : Connection × Nat :=
  ({ cleanups := c.cleanups ++ [c.nextHandle], nextHandle := c.nextHandle + 1 },
    c.nextHandle)

/-- Modelled from the spec: `Connection::unregisterCleanup` removes the
entry with the given handle from the cleanup list (O(1) erase through a
`CleanupIt` iterator in the source; modelled as erase by handle). -/
def Connection.unregisterCleanup (c : Connection) (h : Nat) : Connection :=
  { c with cleanups := c.cleanups.erase h }

/-- Modelled from the spec: the `ProxyClientBase` constructor (declared at
proxy.h line 59, defined outside src/) — "on construction, the proxy
registers a callback with the connection's cleanup list", storing the
handle in `m_cleanup` (proxy.h line 72). -/
def ProxyClientBase.constructClient (c : Connection) : Connection × Nat :=
  c.registerCleanup

/-- Modelled from the spec: the `~ProxyClientBase` destructor (declared at
proxy.h line 60, defined outside src/) — destruction "unregisters its
cleanup entry from the connection", using the stored `m_cleanup` handle. -/
def ProxyClientBase.destroyClient (c : Connection) (m_cleanup : Nat) : Connection :=
  c.unregisterCleanup m_cleanup

/-- Embeds `void construct() \x7b\x7d` (proxy.h line 64): the optional client
construction hook has an empty body when the generated class does not
override it; modelled as a state transformer. -/
def ProxyClientBase.construct {S : Type} (s : S) : S × Unit := (s, ())

/-- Embeds `void destroy() \x7b\x7d` (proxy.h line 65): the optional client destruction
hook has an empty body when not overridden. -/
def ProxyClientBase.destroy {S : Type} (s : S) : S × Unit := (s, ())

/-- What triggered a connection teardown; the spec requires cleanup
behavior to be the same for both. -/
inductive TeardownTrigger where
  | explicitShutdown
  | networkError
deriving DecidableEq, Repr

/-- Runs a cleanup list front to back, producing the trace of executed
callbacks in order. -/
def runCleanups : List Nat → List Nat
  | [] => []
  | f :: rest => f :: runCleanups rest

/-- Modelled from the spec: connection teardown (the `Connection`
destructor, not under src/) — "all registered cleanup callbacks must run
exactly once during teardown, in a defined order ... even if teardown is
triggered by a network error rather than explicit shutdown".  The result
is the execution trace; the trigger does not influence it. -/
def Connection.teardown (c : Connection) (_trigger : TeardownTrigger) : List Nat :=
  runCleanups c.cleanups

/-- Modelled from the spec: the server-side adapter implementing
`ProxyCallback<std::function<Result(Args...)>>` (the interface is
proxy.h lines 203-213, the single pure-virtual operation
`call(Args...) -> Result`; the concrete adapter lives outside src/).
Per the spec it "implements `call` by invoking a genuine local function
value supplied by native code".  An adapter is modelled by the function
its `call` implements. -/
def serverAdapterCall {A R : Type} (fn : A → R) (args : A) : R := fn args

/-- Modelled from the spec: the client-side `ProxyCallback` adapter
(outside src/) "implements `call` by marshaling `args` into a request to
a remote callback capability and decoding the remote result".  `encA` and
`decA` marshal arguments, `encR` and `decR` marshal the result; the
remote side decodes the request, invokes the local function through the
server adapter, and encodes the result into the response. -/
def clientAdapterCall {A R WA WR : Type} (encA : A → WA) (decA : WA → A)
    (encR : R → WR) (decR : WR → R) (fn : A → R) (args : A) : R :=
  decR (encR (serverAdapterCall fn (decA (encA args))))

/-! Helper lemmas shared by the theorems below. -/

/-- Masking a number with a single power of two is nonzero exactly when
the corresponding bit is set. -/
theorem and_pow_ne_zero_eq_testBit (n i : Nat) : (n &&& 2 ^ i != 0) = n.testBit i := by
  rw [Nat.and_two_pow]
  have h2 : (2 : Nat) ^ i ≠ 0 := Nat.pos_iff_ne_zero.mp (Nat.pos_pow_of_pos i (by norm_num))
  cases h : n.testBit i <;> simp [h2]

/-- Erasing a freshly appended element recovers the original list. -/
theorem erase_append_singleton (a : Nat) :
    ∀ l : List Nat, a ∉ l → (l ++ [a]).erase a = l := by
  intro l
  induction l with
  | nil => intro _; simp
  | cons b l ih =>
    intro h
    rw [List.cons_append, List.erase_cons]
    have hba : (b == a) = false := by
      simp only [beq_eq_false_iff_ne, ne_eq]
      intro e
      exact h (by simp [e])
    simp [hba, ih (fun hm => h (List.mem_cons_of_mem b hm))]

/-- The teardown runner executes the registered list unchanged, in order. -/
theorem runCleanups_eq (l : List Nat) : runCleanups l = l := by
  induction l with
  | nil => rfl
  | cons f rest ih => simp [runCleanups, ih]

/-- C1: after `invokeDestroy` has released the held implementation, any
request dispatch through the method trait `invoke` fails with the defined
"target destroyed" error instead of performing an undefined access. -/
theorem dispatch_after_invokeDestroy_fails {Impl A R : Type} (impl : Impl → A → R)
    (s : ServerState Impl) (args : A) :
    requestDispatch impl ⟨s.invokeDestroy⟩ args =
      Except.error DispatchError.targetDestroyed := by
  cases h : s.m_impl <;>
    simp [requestDispatch, ProxyMethodTraits.invoke, ServerState.invokeDestroy, h]

/-- C2: when the proxy server holds a live implementation, the method
trait `invoke` calls exactly the bound native method pointer on the
wrapped implementation object, forwarding the arguments unchanged, and
returns the native result. -/
theorem invoke_calls_native_method {Impl A R : Type} (impl : Impl → A → R)
    (sc : ServerContext Impl) (args : A) (i : Impl)
    (h : sc.proxy_server.m_impl = some i) :
    ProxyMethodTraits.invoke impl sc args = some (impl i args) := by
  simp [ProxyMethodTraits.invoke, h]

/-- Witness for C2 at a concrete input: an addition method on a server
holding implementation `3`, invoked with argument `4`, yields `7`. -/
theorem invoke_calls_native_method_witness :
    ProxyMethodTraits.invoke (fun (i a : Nat) => i + a) ⟨⟨some 3, 0⟩⟩ 4 = some 7 := by
  have h := invoke_calls_native_method (fun (i a : Nat) => i + a) ⟨⟨some 3, 0⟩⟩ 4 3 rfl
  simpa using h

/-- C3: the default trait entry, used when no native method pointer is
bound, has empty `Params`, `void` `Result`, empty `Fields`, and its
`invoke` is a no-op that changes no state and returns nothing. -/
theorem proxy_method_traits_default_noop :
    ProxyMethodTraitsDefault.Params = ([] : List TypeCode) ∧
    ProxyMethodTraitsDefault.Result = TypeCode.void ∧
    ProxyMethodTraitsDefault.Fields = ([] : List TypeCode) ∧
    ∀ (S : Type) (s : S), ProxyMethodTraitsDefault.invoke s = (s, ()) :=
  ⟨rfl, rfl, rfl, fun _ _ => rfl⟩

/-- C4: for every bound native method pointer, `Params` is the ordered
list of the method's parameter types, `Result` is its result type, and
`Fields` is `Params` with `Result` appended, except that it equals
`Params` exactly when `Result` is void. -/
theorem function_traits_derivation (m : MethodSig) :
    FunctionTraits.Params m = m.params ∧
    FunctionTraits.Result m = m.result ∧
    FunctionTraits.Fields m =
      (if m.result = TypeCode.void then m.params else m.params ++ [m.result]) :=
  ⟨rfl, rfl, rfl⟩

/-- C5: each of the five accessor booleans is determined solely by its
own bit of the flags value (bit 0 for `in`, 1 for `out`, 2 for
`optional`, 3 for `requested`, 4 for `boxed`), and all 32 combinations
are representable with no flag constraining another. -/
theorem accessor_flag_bits :
    (∀ flags : Nat,
      Accessor.in_ flags = flags.testBit 0 ∧
      Accessor.out flags = flags.testBit 1 ∧
      Accessor.optional flags = flags.testBit 2 ∧
      Accessor.requested flags = flags.testBit 3 ∧
      Accessor.boxed flags = flags.testBit 4) ∧
    (∀ i o p r b : Bool,
      Accessor.in_ (mkFlags i o p r b) = i ∧
      Accessor.out (mkFlags i o p r b) = o ∧
      Accessor.optional (mkFlags i o p r b) = p ∧
      Accessor.requested (mkFlags i o p r b) = r ∧
      Accessor.boxed (mkFlags i o p r b) = b) := by
  constructor
  · intro flags
    refine ⟨?_, ?_, ?_, ?_, ?_⟩
    · show (flags &&& 1 != 0) = flags.testBit 0
      rw [show (1 : Nat) = 2 ^ 0 by norm_num, and_pow_ne_zero_eq_testBit]
    · show (flags &&& 2 != 0) = flags.testBit 1
      rw [show (2 : Nat) = 2 ^ 1 by norm_num, and_pow_ne_zero_eq_testBit]
    · show (flags &&& 4 != 0) = flags.testBit 2
      rw [show (4 : Nat) = 2 ^ 2 by norm_num, and_pow_ne_zero_eq_testBit]
    · show (flags &&& 8 != 0) = flags.testBit 3
      rw [show (8 : Nat) = 2 ^ 3 by norm_num, and_pow_ne_zero_eq_testBit]
    · show (flags &&& 16 != 0) = flags.testBit 4
      rw [show (16 : Nat) = 2 ^ 4 by norm_num, and_pow_ne_zero_eq_testBit]
  · decide

/-- C6: `invokeDestroy` called twice produces the same observable state
as called once (implementation released, proxy object state otherwise
intact), and the release step of actual destruction after an earlier
`invokeDestroy` releases the implementation no additional time. -/
theorem invokeDestroy_idempotent {Impl : Type} (s : ServerState Impl) :
    s.invokeDestroy.invokeDestroy = s.invokeDestroy ∧
    s.invokeDestroy.m_impl = none ∧
    s.invokeDestroy.destructorRelease = s.invokeDestroy := by
  cases h : s.m_impl <;>
    simp [ServerState.invokeDestroy, ServerState.destructorRelease, h]

/-- C7: when marshaling round-trips arguments and results faithfully,
invoking a callback wrapper through the client-side adapter's remote
round trip yields the same result as invoking it through the server-side
local adapter. -/
theorem callback_adapters_agree {A R WA WR : Type} (encA : A → WA) (decA : WA → A)
    (encR : R → WR) (decR : WR → R) (fn : A → R) (args : A)
    (hA : ∀ a, decA (encA a) = a) (hR : ∀ r, decR (encR r) = r) :
    clientAdapterCall encA decA encR decR fn args = serverAdapterCall fn args := by
  simp [clientAdapterCall, serverAdapterCall, hA, hR]

/-- Witness for C7 at a concrete input: shifting encoders on `Nat` with
their decoders, a successor callback applied to `3` agrees across the
two adapters. -/
theorem callback_adapters_agree_witness :
    clientAdapterCall (fun n : Nat => n + 5) (fun n : Nat => n - 5)
      (fun n : Nat => n + 7) (fun n : Nat => n - 7) (fun n : Nat => n + 1) 3 =
    serverAdapterCall (fun n : Nat => n + 1) 3 :=
  callback_adapters_agree _ _ _ _ _ 3 (fun a => by omega) (fun r => by omega)

/-- C8: constructing a client proxy and immediately destroying it removes
exactly the cleanup entry it registered, leaving the connection's other
cleanup entries unchanged. -/
theorem client_lifecycle_frame (c : Connection) (hfresh : c.nextHandle ∉ c.cleanups) :
    (ProxyClientBase.destroyClient (ProxyClientBase.constructClient c).1
      (ProxyClientBase.constructClient c).2).cleanups = c.cleanups := by
  simp only [ProxyClientBase.destroyClient, ProxyClientBase.constructClient,
    Connection.registerCleanup, Connection.unregisterCleanup]
  exact erase_append_singleton _ _ hfresh

/-- Witness for C8 at a concrete input: a connection with entries `[0,
1]` and fresh handle `2` has the same entries after a construct/destroy
pair. -/
theorem client_lifecycle_frame_witness :
    (ProxyClientBase.destroyClient (ProxyClientBase.constructClient ⟨[0, 1], 2⟩).1
      (ProxyClientBase.constructClient ⟨[0, 1], 2⟩).2).cleanups = [0, 1] :=
  client_lifecycle_frame ⟨[0, 1], 2⟩ (by decide)

/-- C9: tearing down a connection whose registered cleanup callbacks are
pairwise distinct runs each exactly once, in the defined
registration order, and the trace does not depend on whether teardown
was triggered by explicit shutdown or a network error. -/
theorem teardown_runs_each_cleanup_once (c : Connection) (t : TeardownTrigger)
    (hnd : c.cleanups.Nodup) :
    (∀ cb ∈ c.cleanups, (c.teardown t).count cb = 1) ∧
    c.teardown t = c.cleanups ∧
    ∀ t2 : TeardownTrigger, c.teardown t2 = c.teardown t := by
  refine ⟨?_, ?_, ?_⟩
  · intro cb hcb
    rw [Connection.teardown, runCleanups_eq]
    exact List.count_eq_one_of_mem hnd hcb
  · rw [Connection.teardown, runCleanups_eq]
  · intro t2
    rw [Connection.teardown, Connection.teardown]

/-- Witness for C9 at a concrete input: a connection with three distinct
cleanup entries, torn down by a network error, runs exactly them in
order. -/
theorem teardown_runs_each_cleanup_once_witness :
    Connection.teardown ⟨[5, 6, 7], 8⟩ TeardownTrigger.networkError = [5, 6, 7] :=
  (teardown_runs_each_cleanup_once ⟨[5, 6, 7], 8⟩ TeardownTrigger.networkError
    (by decide)).2.1

/-- C10: when the generated class does not override them, the `construct`
and `destroy` lifecycle hooks inherited from `ProxyClientBase` are
no-ops: they change no state and perform no call. -/
theorem construct_destroy_hooks_noop :
    ∀ (S : Type) (s : S),
      ProxyClientBase.construct s = (s, ()) ∧ ProxyClientBase.destroy s = (s, ()) :=
  fun _ _ => ⟨rfl, rfl⟩

end mp
